import Mathlib

/-!
Verification of the checkpoint-inspection and training-harness scripts
(`verify_performance.py` and `train.py`) against their natural-language
specification, via a shallow embedding in Lean 4.

Modelling conventions:
* Python `float` values are modelled as exact rationals (`ℚ`).  Every numeric
  literal appearing in the scripts (`0.3504`, `0.846`, `0.893`, `0.350`, …) is
  a short decimal, so the idealisation does not affect any claim at the stated
  precision.
* Python strings are Lean `String`s; the string operations the scripts use
  (`str.split`, `in`, `Path(...).stem`, lexicographic comparison) are defined
  below on the underlying character lists, following CPython semantics.
* Filesystem state is passed explicitly: a directory is `Option (List String)`
  (`none` = the directory does not exist, `some files` = the `glob("*.ckpt")`
  result, given as bare file names).
* A Python function that can raise an uncaught exception is modelled in
  `Except String α`; `.error` marks an uncaught exception (non-zero exit),
  `.ok` normal completion.
* `print` output is abstracted to the data it is computed from; boolean flags
  record whether a given notice was printed.
-/

/-! ### Python value model -/

/-- Value stored in the parsed metrics dictionary: a Python `int`, a Python
`float` (modelled as an exact rational), or a string. -/
inductive PyVal where
  | int : Int → PyVal
  | num : ℚ → PyVal
  | str : String → PyVal
deriving DecidableEq, Repr

/-! ### Character-list string primitives (CPython semantics) -/

/-- CPython `s.split(sep)` for a one-character separator, on the character
list: keeps empty fields, `"".split(sep) == ['']`. -/
def splitOnChar (sep : Char) : List Char → List (List Char)
  | [] => [[]]
  | c :: cs =>
    let r := splitOnChar sep cs
    if c = sep then [] :: r
    else
      match r with
      | [] => [[c]]
      | h :: t => (c :: h) :: t

/-- Lean wrapper for CPython `s.split(sep)` producing `String`s. -/
def pySplit (s : String) (sep : Char) : List String :=
  (splitOnChar sep s.data).map String.mk

/-- CPython `c in s` for a single character `c`. -/
def containsChar (s : String) (c : Char) : Bool :=
  s.data.any (fun x => decide (x = c))

/-- Index of the last `'.'` in a character list (CPython `name.rfind('.')`,
as an `Option` instead of `-1`). -/
def lastDotPos : List Char → Option Nat
  | [] => none
  | c :: cs =>
    match lastDotPos cs with
    | some i => some (i + 1)
    | none => if c = '.' then some 0 else none

/-- CPython `PurePath(name).stem` for a single-component relative path: the
name without its last suffix; the suffix is `name[i:]` only when the last
`'.'` sits strictly inside the name (`0 < i < len(name) - 1`). -/
def pyStem (l : List Char) : List Char :=
  match lastDotPos l with
  | some i => if 0 < i ∧ i < l.length - 1 then l.take i else l
  | none => l

/-- Numeric value of a digit list (no sign), as CPython `int` would read it. -/
def digitsToNat (l : List Char) : Nat :=
  l.foldl (fun a c => 10 * a + (c.toNat - 48)) 0

/-- Strip one optional leading sign, returning the sign factor and the rest. -/
def parseSign : List Char → Int × List Char
  | [] => (1, [])
  | c :: r => if c = '-' then (-1, r) else if c = '+' then (1, r) else (1, c :: r)

/-- CPython `int(v)` on the decimal-literal fragment the checkpoint names can
contain: optional sign then one or more ASCII digits; `none` models
`ValueError`.  (Underscore separators and surrounding whitespace, which
CPython also accepts, do not occur in checkpoint names and are outside the
model.) -/
def pyIntOfChars (l : List Char) : Option Int :=
  let (s, ds) := parseSign l
  if ds ≠ [] ∧ ds.all Char.isDigit then some (s * digitsToNat ds) else none

/-- CPython `float(v)` on the decimal-literal fragment the checkpoint names
can contain: optional sign, digits, at most one `'.'`, at least one digit
overall; `none` models `ValueError`.  (Exponent, `inf`/`nan`, underscore and
whitespace forms are outside the model; the caller only reaches `float` when
the text contains a `'.'`.) -/
def pyFloatOfChars (l : List Char) : Option ℚ :=
  let (s, ds) := parseSign l
  match splitOnChar '.' ds with
  | [ip] =>
    if ip ≠ [] ∧ ip.all Char.isDigit then some ((s : ℚ) * digitsToNat ip) else none
  | [ip, fp] =>
    if (ip ++ fp) ≠ [] ∧ (ip ++ fp).all Char.isDigit then
      some ((s : ℚ) * ((digitsToNat ip : ℚ) + (digitsToNat fp : ℚ) / (10 : ℚ) ^ fp.length))
    else none
  | _ => none

/-- Evaluation helper: numeric value of the digit character `'0'`. -/
theorem charVal0 : '0'.toNat - 48 = 0 := rfl

/-- Evaluation helper: numeric value of the digit character `'1'`. -/
theorem charVal1 : '1'.toNat - 48 = 1 := rfl

/-- Evaluation helper: numeric value of the digit character `'2'`. -/
theorem charVal2 : '2'.toNat - 48 = 2 := rfl

/-- Evaluation helper: numeric value of the digit character `'3'`. -/
theorem charVal3 : '3'.toNat - 48 = 3 := rfl

/-- Evaluation helper: numeric value of the digit character `'4'`. -/
theorem charVal4 : '4'.toNat - 48 = 4 := rfl

/-- Evaluation helper: numeric value of the digit character `'5'`. -/
theorem charVal5 : '5'.toNat - 48 = 5 := rfl

/-- Evaluation helper: numeric value of the digit character `'6'`. -/
theorem charVal6 : '6'.toNat - 48 = 6 := rfl

/-- Evaluation helper: numeric value of the digit character `'7'`. -/
theorem charVal7 : '7'.toNat - 48 = 7 := rfl

/-- Evaluation helper: numeric value of the digit character `'8'`. -/
theorem charVal8 : '8'.toNat - 48 = 8 := rfl

/-- Evaluation helper: numeric value of the digit character `'9'`. -/
theorem charVal9 : '9'.toNat - 48 = 9 := rfl

/-- CPython `int(v)` on a string (see `pyIntOfChars`). -/
def pyInt (v : String) : Option Int := pyIntOfChars v.data

/-- CPython `float(v)` on a string (see `pyFloatOfChars`). -/
def pyFloat (v : String) : Option ℚ := pyFloatOfChars v.data

/-! ### `extract_metrics_from_checkpoint` (verify_performance.py lines 10-29) -/

/-- Inner `try` of `extract_metrics_from_checkpoint`:
`float(value) if '.' in value else int(value)`, with `ValueError` caught and
the raw string kept. -/
def coerceValue (v : String) : PyVal :=
  if containsChar v '.' then
    match pyFloat v with
    | some q => .num q
    | none => .str v
  else
    match pyInt v with
    | some n => .int n
    | none => .str v

/-- The parsed metrics dictionary: insertion-ordered association list with
unique keys, as a Python `dict`. -/
abbrev Metrics := List (String × PyVal)

/-- Python `metrics[key] = value`: replace the value at an existing key in
place, else append the new binding. -/
def upsert (m : Metrics) (k : String) (v : PyVal) : Metrics :=
  if m.any (fun p => decide (p.1 = k)) then
    m.map (fun p => if p.1 = k then (k, v) else p)
  else m ++ [(k, v)]

/-- Python `metrics.get(key)` / `key in metrics`. -/
def lookup (m : Metrics) (k : String) : Option PyVal :=
  (m.find? (fun p => decide (p.1 = k))).map Prod.snd

/-- One iteration of the `for part in parts` loop: a part that splits on `'='`
into exactly a key and a value is stored, a part without `'='` is skipped.
(The third shape — three or more fields — raises and is handled by the caller.) -/
def extractStep (m : Metrics) (p : String) : Metrics :=
  match pySplit p '=' with
  | [k, v] => upsert m k (coerceValue v)
  | _ => m

/-- The whole `for part in parts` loop starting from the empty dictionary. -/
def extractParts (parts : List String) : Metrics :=
  parts.foldl extractStep []

/-- `extract_metrics_from_checkpoint(checkpoint_path)`: stem of the file name,
split on `'-'`, each `key=value` token parsed.  A token that splits on `'='`
into three or more fields makes `key, value = part.split('=')` raise
`ValueError`; the outer handler catches it and the function returns `{}`. -/
def extract_metrics_from_checkpoint (checkpoint_path : String) : Metrics :=
  let filename := String.mk (pyStem checkpoint_path.data)
  let parts := pySplit filename '-'
  if parts.any (fun p => decide (2 < (pySplit p '=').length)) then []
  else extractParts parts

/-! ### `list_checkpoints` (verify_performance.py lines 31-47) -/

/-- One record of the list built by `list_checkpoints`: file name plus parsed
metrics.  The `path` field of the Python record is the directory joined with
the file name and carries no extra information, so it is not repeated here. -/
structure Checkpoint where
  filename : String
  metrics : Metrics
deriving DecidableEq, Repr

/-- Build the record for one `*.ckpt` file found by the glob. -/
def mkCheckpoint (name : String) : Checkpoint :=
  ⟨name, extract_metrics_from_checkpoint name⟩

/-- Sort key produced by `x['metrics'].get('val_loss', float('inf'))`: a
number (Python `int` and `float` compare numerically), the `'inf'` default, or
a string when the parsed `val_loss` value was kept as text. -/
inductive SortKey where
  | num : ℚ → SortKey
  | inf : SortKey
  | str : String → SortKey
deriving DecidableEq, Repr

/-- The sort key of a checkpoint record. -/
def sortKey (c : Checkpoint) : SortKey :=
  match lookup c.metrics "val_loss" with
  | some (.int n) => .num n
  | some (.num q) => .num q
  | some (.str s) => .str s
  | none => .inf

/-- Whether a sort key is a string (the kind that cannot be compared with the
numeric keys). -/
def isStrKey : SortKey → Bool
  | .str _ => true
  | _ => false

/-- Comparison of sort keys as CPython orders them: numbers below `inf`,
strings lexicographically by code point.  A comparison between a string and a
number (or `inf`) raises `TypeError` in CPython; `list_checkpoints` below
rejects such inputs before sorting, so the value returned here on those
cross-type pairs is never used (it is fixed so that the relation is total and
transitive). -/
def keyLE : SortKey → SortKey → Bool
  | .num a, .num b => decide (a ≤ b)
  | .num _, .inf => true
  | .num _, .str _ => true
  | .inf, .num _ => false
  | .inf, .inf => true
  | .inf, .str _ => true
  | .str _, .num _ => false
  | .str _, .inf => false
  | .str a, .str b => decide (a ≤ b)

/-- Ordering of checkpoint records used by `sorted(checkpoints, key=...)`. -/
def ckptRel (a b : Checkpoint) : Prop :=
  keyLE (sortKey a) (sortKey b) = true

instance : DecidableRel ckptRel := fun _ _ =>
  inferInstanceAs (Decidable (_ = true))

/-- Whether CPython's `sorted` completes on these records: it raises
`TypeError` as soon as a string key is compared with a numeric (or `inf`)
key, and whenever both kinds are present such a comparison is unavoidable
(the relative order of the two kinds can only be established by a direct
cross-type comparison). -/
def sortable (cs : List Checkpoint) : Bool :=
  cs.all (fun c => isStrKey (sortKey c)) || cs.all (fun c => !isStrKey (sortKey c))

/-- `list_checkpoints(checkpoint_dir)`.  The directory is `none` when it does
not exist (the function prints a notice and returns `[]`; the `Bool` of the
result records that the notice was printed) and `some files` otherwise, with
`files` the names matched by `glob("*.ckpt")`.  `sorted` is a stable sort by
the `val_loss` key, modelled by `List.insertionSort` (stable sorts by a total
preorder agree); mixed string/number keys make it raise `TypeError`, which
propagates to the caller. -/
def list_checkpoints (dir : Option (List String)) : Except String (List Checkpoint × Bool) :=
  match dir with
  | none => .ok ([], true)
  | some files =>
    let cs := files.map mkCheckpoint
    if sortable cs then .ok (List.insertionSort ckptRel cs, false)
    else .error "TypeError: '<' not supported between instances of 'str' and 'float'"

/-- The numeric (Python `int` or `float`) content of a looked-up metric
value, used wherever the scripts do arithmetic on it after an
`isinstance(x, (int, float))` test or fail with `TypeError`. -/
def numVal : Option PyVal → Option ℚ
  | some (.int n) => some (n : ℚ)
  | some (.num q) => some q
  | _ => none

/-- The parsed `val_loss` value of a record when it is present and numeric. -/
def valLossQ (c : Checkpoint) : Option ℚ :=
  numVal (lookup c.metrics "val_loss")

/-! ### The comparison and verdict logic of `main` (verify_performance.py lines 111-196) -/

/-- Expected reference results hard-coded in `main` (lines 145-149). -/
def expected_results : List (String × ℚ) :=
  [("val_loss", 0.3504), ("accuracy", 0.846), ("f1", 0.893)]

/-- One line of the per-metric comparison loop (lines 155-161): when the
actual value is numeric the loop prints `diff = actual - expected` and
`diff_pct = diff / expected * 100`; otherwise it prints a "not found" line
and computes nothing. -/
def metricComparison (m : Metrics) (key : String) (expected : ℚ) : Option (ℚ × ℚ) :=
  match numVal (lookup m key) with
  | some a => some (a - expected, (a - expected) / expected * 100)
  | none => none

/-- Absolute percentage deviation `abs((actual - expected) / expected * 100)`
used by the verdict block (lines 170-171). -/
def devPct (actual expected : ℚ) : ℚ :=
  |(actual - expected) / expected * 100|

/-- The verdict printed by `main` (lines 167-183). -/
inductive Verdict where
  | excellent
  | good
  | notice
  | incomplete
deriving DecidableEq, Repr

/-- Verdict block of `main` (lines 167-183): when all three expected keys are
present in the best record, compute the three absolute percentage deviations
and classify; `docker_results[m] - expected_results[m]` raises `TypeError`
when a present value is a string.  When a key is missing, the block prints
the "could not verify" notice (`.incomplete`). -/
def verdictOf (docker_results : Metrics) : Except String Verdict :=
  if expected_results.all (fun p => (lookup docker_results p.1).isSome) then
    match numVal (lookup docker_results "val_loss"),
        numVal (lookup docker_results "accuracy"),
        numVal (lookup docker_results "f1") with
    | some a, some b, some c =>
      let diffs := [devPct a 0.3504, devPct b 0.846, devPct c 0.893]
      if diffs.all (fun d => decide (d < 2)) then .ok .excellent
      else if diffs.all (fun d => decide (d < 5)) then .ok .good
      else .ok .notice
    | _, _, _ => .error "TypeError: unsupported operand type(s) for -: 'str' and 'float'"
  else .ok .incomplete

/-- `main()` of verify_performance.py, reduced to its fallible skeleton: list
and sort the checkpoints of the default directory (propagating a sorting
`TypeError`), return early when there are none, else analyse the best (first)
record (propagating a `TypeError` from the verdict arithmetic).  All other
statements are prints of already-computed data and cannot raise. -/
def mainVerify (dir : Option (List String)) : Except String Unit :=
  match list_checkpoints dir with
  | .error e => .error e
  | .ok ([], _) => .ok ()
  | .ok (best :: _, _) =>
    match verdictOf best.metrics with
    | .error e => .error e
    | .ok _ => .ok ()

/-- Process exit status of `python verify_performance.py`: `0` when `main`
returns, non-zero (`1` for an uncaught exception) otherwise. -/
def exitCode (dir : Option (List String)) : Nat :=
  match mainVerify dir with
  | .ok _ => 0
  | .error _ => 1

/-! ### `print_comparison_table` (verify_performance.py lines 49-80) -/

/-- Data of one printed row of the comparison table: metric label, expected
constant, the value found (`none` prints as `"N/A"`), and the difference cell
`(diff, diff_pct)` (`none` prints as `"N/A"`).  The printed text is a fixed
format applied to exactly these fields. -/
structure TableRow where
  metricName : String
  expected : ℚ
  yourResult : Option PyVal
  diffCell : Option (ℚ × ℚ)
deriving DecidableEq, Repr

/-- The metric triples hard-coded in `print_comparison_table` (lines 61-65).
Note the expected validation loss here is `0.350`, not the `0.3504` used by
`main`. -/
def comparisonMetrics : List (String × ℚ × String) :=
  [("Validation Loss", 0.350, "val_loss"), ("Accuracy", 0.846, "accuracy"), ("F1 Score", 0.893, "f1")]

/-- Python `environments.get('docker', {})`. -/
def dockerEntry (environments : List (String × Metrics)) : Option Metrics :=
  (environments.find? (fun p => decide (p.1 = "docker"))).map Prod.snd

/-- `print_comparison_table(environments)`: the three data rows of the table
it prints.  Every row reads only `environments.get('docker', {})`; a numeric
value yields a difference cell, anything else prints `"N/A"`. -/
def print_comparison_table (environments : List (String × Metrics)) : List TableRow :=
  let docker := (dockerEntry environments).getD []
  comparisonMetrics.map (fun t =>
    let r := lookup docker t.2.2
    match numVal r with
    | some q => ⟨t.1, t.2.1, r, some (q - t.2.1, (q - t.2.1) / t.2.1 * 100)⟩
    | none => ⟨t.1, t.2.1, r, none⟩)

/-! ### train.py: argument parsing, credential bootstrap and wiring -/

/-- The `choices` list of `--task_name` (train.py lines 33-39). -/
def glue_task_choices : List String :=
  ["cola", "sst2", "mrpc", "qqp", "stsb", "mnli", "qnli", "rte", "wnli"]

/-- Resolution of the `--task_name` option by `argparse`: absent means the
default `"mrpc"`; a supplied value outside `choices` makes `parse_args` print
a usage error and exit (status 2) before `main` continues.  The other options
do not interact with the claims settled here and are omitted. -/
def parse_args_task (cliTask : Option String) : Except String String :=
  match cliTask with
  | none => .ok "mrpc"
  | some t =>
    if t ∈ glue_task_choices then .ok t
    else .error "usage: argument --task_name: invalid choice"

/-- Process environment fragment read by `main` (train.py lines 141-144). -/
structure Env where
  wandb_api_key : Option String
  wandb_mode : Option String
deriving DecidableEq, Repr

/-- Fault model for the credential write (train.py lines 147-155): the
`open`/`write` calls may raise, and `os.chmod` may raise after a successful
write.  Both are caught by the surrounding `except`. -/
structure FsFault where
  writeFails : Bool
  chmodFails : Bool
deriving DecidableEq, Repr

/-- State of the `~/.netrc` credential file after the bootstrap: its written
lines and the mode set by `os.chmod` (`none` while no chmod succeeded). -/
structure CredFile where
  lines : List String
  mode : Option Nat
deriving DecidableEq, Repr

/-- The three lines written to `~/.netrc` (train.py lines 149-151). -/
def netrcLines (key : String) : List String :=
  ["machine api.wandb.ai", "  login user", "  password " ++ key]

/-- The guard `if wandb_api_key and os.getenv('WANDB_MODE') != 'offline'`
(train.py line 144): Python truthiness makes an empty-string key skip the
write exactly like an unset variable. -/
def shouldWriteCred (env : Env) : Bool :=
  (match env.wandb_api_key with
   | some k => decide (k ≠ "")
   | none => false) &&
  decide (env.wandb_mode ≠ some "offline")

/-- Credential bootstrap (train.py lines 141-155): returns the resulting file
state (`none` when nothing was written) and whether the failure warning was
printed.  Exceptions from the write or the chmod are caught; the function
never aborts the run. -/
def credentialBootstrap (env : Env) (f : FsFault) : Option CredFile × Bool :=
  if shouldWriteCred env then
    if f.writeFails then (none, true)
    else if f.chmodFails then
      (some ⟨netrcLines (env.wandb_api_key.getD ""), none⟩, true)
    else (some ⟨netrcLines (env.wandb_api_key.getD ""), some 0o600⟩, false)
  else (none, false)

/-- The wiring actions `main` of train.py performs after parsing, in program
order (lines 133-229).  The externally-delegated work inside each step is
outside the model. -/
inductive TrainStep where
  | seedEverything
  | makeCheckpointDir
  | credBootstrap
  | wandbLoggerInit
  | logHyperparams
  | dataModuleSetup
  | modelInit
  | trainerInit
  | trainerFit
  | wandbFinish
deriving DecidableEq, Repr

/-- Every wiring step of a completed `main`, in order. -/
def allTrainSteps : List TrainStep :=
  [.seedEverything, .makeCheckpointDir, .credBootstrap, .wandbLoggerInit, .logHyperparams,
   .dataModuleSetup, .modelInit, .trainerInit, .trainerFit, .wandbFinish]

/-- Result of a completed training `main`: the resolved task, the wiring
steps performed, and the credential-bootstrap outcome. -/
structure TrainRun where
  taskName : String
  steps : List TrainStep
  credFile : Option CredFile
  credWarning : Bool
deriving DecidableEq, Repr

/-- `main()` of train.py: parse the arguments (a usage error stops the
process before any wiring), run the credential bootstrap (never fatal), then
perform the wiring steps.  Failures raised inside the external libraries
(logger, data module, trainer) are outside the model; the model records the
steps reached. -/
def trainMain (cliTask : Option String) (env : Env) (f : FsFault) : Except String TrainRun :=
  match parse_args_task cliTask with
  | .error e => .error e
  | .ok task =>
    let r := credentialBootstrap env f
    .ok ⟨task, allTrainSteps, r.1, r.2⟩

/-! ### Order-theoretic helper lemmas for the sort relation -/

/-- The extended key comparison is total. -/
theorem keyLE_total (a b : SortKey) : keyLE a b = true ∨ keyLE b a = true := by
  cases a <;> cases b <;> simp [keyLE] <;> exact le_total _ _

/-- The extended key comparison is transitive. -/
theorem keyLE_trans {a b c : SortKey} (h1 : keyLE a b = true) (h2 : keyLE b c = true) :
    keyLE a c = true := by
  cases a <;> cases b <;> cases c <;> simp_all [keyLE] <;> exact le_trans h1 h2

instance : IsTotal Checkpoint ckptRel :=
  ⟨fun a b => keyLE_total (sortKey a) (sortKey b)⟩

instance : IsTrans Checkpoint ckptRel :=
  ⟨fun _ _ _ h1 h2 => keyLE_trans h1 h2⟩

/-! ### Claims -/

/-- C6: for a directory argument that does not exist, `list_checkpoints`
returns the empty list and prints the not-found notice instead of raising;
an existing but empty directory yields zero records, also without raising. -/
theorem c6_missing_or_empty_dir :
    list_checkpoints none = .ok ([], true) ∧ list_checkpoints (some []) = .ok ([], false) :=
  ⟨rfl, rfl⟩

/-- C10: the table printed by `print_comparison_table` depends only on the
`docker` entry of its argument: two environment mappings with the same value
under `"docker"` (including both lacking it) produce identical tables, so the
records supplied for every other environment key are ignored. -/
theorem c10_docker_only_dependence (e1 e2 : List (String × Metrics))
    (h : dockerEntry e1 = dockerEntry e2) :
    print_comparison_table e1 = print_comparison_table e2 := by
  unfold print_comparison_table
  rw [h]

/-- Witness for C10 at a concrete pair of environment mappings that differ
everywhere except the `docker` entry. -/
theorem c10_docker_only_witness :
    print_comparison_table
        [("docker", [("val_loss", .int 1)]), ("local", [("accuracy", .int 0)])] =
      print_comparison_table [("docker", [("val_loss", .int 1)])] :=
  c10_docker_only_dependence _ _ rfl

/-- C8: a `--task_name` value outside the nine recognised GLUE task names
makes argument parsing fail with a usage error, so `main` stops before any
data-module, model or trainer wiring (the error result carries no wiring
steps). -/
theorem c8_task_name_usage_error (t : String) (env : Env) (f : FsFault)
    (h : t ∉ glue_task_choices) :
    trainMain (some t) env f = .error "usage: argument --task_name: invalid choice" := by
  simp only [trainMain, parse_args_task, if_neg h]

/-- Witness for C8 at the concrete unrecognised task name `"sst3"`. -/
theorem c8_task_name_witness :
    trainMain (some "sst3") ⟨none, none⟩ ⟨false, false⟩ =
      .error "usage: argument --task_name: invalid choice" :=
  c8_task_name_usage_error "sst3" ⟨none, none⟩ ⟨false, false⟩ (by decide)

/-- C9 counterexample: with the API-key environment variable set to the empty
string and the mode variable unset — so the variable *is* set and the mode
does not equal the offline sentinel — the code writes no credential file,
because the Python truthiness test `if wandb_api_key` rejects the empty
string.  The run still completes normally. -/
theorem c9_empty_key_counterexample :
    (Env.mk (some "") none).wandb_api_key.isSome = true ∧
    (Env.mk (some "") none).wandb_mode ≠ some "offline" ∧
    credentialBootstrap ⟨some "", none⟩ ⟨false, false⟩ = (none, false) ∧
    trainMain none ⟨some "", none⟩ ⟨false, false⟩ =
      .ok ⟨"mrpc", allTrainSteps, none, false⟩ :=
  ⟨rfl, by decide, rfl, rfl⟩

/-- C9 (amended): the credential file is written exactly when the API-key
variable is set to a NON-EMPTY value, the mode variable does not equal the
offline sentinel, and the write does not fail; a fully successful write ends
with the netrc content under owner-only (`0o600`) permissions and no warning;
a failing write or permission change only sets the warning; and whenever
argument parsing succeeds the run continues through all wiring steps
regardless of credential faults. -/
theorem c9_credential_amended (env : Env) (f : FsFault) :
    ((credentialBootstrap env f).1.isSome = true ↔
      ((∃ k, env.wandb_api_key = some k ∧ k ≠ "") ∧ env.wandb_mode ≠ some "offline" ∧
        f.writeFails = false)) ∧
    (((∃ k, env.wandb_api_key = some k ∧ k ≠ "") ∧ env.wandb_mode ≠ some "offline") →
      f.writeFails = false → f.chmodFails = false →
      ∃ k, env.wandb_api_key = some k ∧
        credentialBootstrap env f = (some ⟨netrcLines k, some 0o600⟩, false)) ∧
    (((∃ k, env.wandb_api_key = some k ∧ k ≠ "") ∧ env.wandb_mode ≠ some "offline") →
      (f.writeFails = true ∨ f.chmodFails = true) →
      (credentialBootstrap env f).2 = true) ∧
    (∀ cliTask task, parse_args_task cliTask = .ok task →
      ∃ r : TrainRun, trainMain cliTask env f = .ok r ∧ r.steps = allTrainSteps ∧
        r.credFile = (credentialBootstrap env f).1 ∧
        r.credWarning = (credentialBootstrap env f).2) := by
  obtain ⟨key, mode⟩ := env
  obtain ⟨wf, cf⟩ := f
  have hs : shouldWriteCred ⟨key, mode⟩ = true ↔
      ((∃ k, key = some k ∧ k ≠ "") ∧ mode ≠ some "offline") := by
    cases key <;> simp [shouldWriteCred]
  refine ⟨?_, ?_, ?_, ?_⟩
  · constructor
    · intro hsome
      by_cases h : shouldWriteCred ⟨key, mode⟩ = true
      · obtain ⟨hc1, hc2⟩ := hs.mp h
        refine ⟨hc1, hc2, ?_⟩
        cases wf
        · rfl
        · simp [credentialBootstrap, h] at hsome
      · have h' : shouldWriteCred ⟨key, mode⟩ = false := by simpa using h
        simp [credentialBootstrap, h'] at hsome
    · rintro ⟨hc1, hc2, hwf⟩
      have h : shouldWriteCred ⟨key, mode⟩ = true := hs.mpr ⟨hc1, hc2⟩
      subst hwf
      cases cf <;> simp [credentialBootstrap, h]
  · intro hc hw hcm
    subst hw; subst hcm
    obtain ⟨⟨k, hk, hke⟩, hm⟩ := hc
    refine ⟨k, hk, ?_⟩
    have h : shouldWriteCred ⟨key, mode⟩ = true := hs.mpr ⟨⟨k, hk, hke⟩, hm⟩
    subst hk
    simp [credentialBootstrap, h]
  · intro hc hf
    have h : shouldWriteCred ⟨key, mode⟩ = true := hs.mpr hc
    rcases hf with hw | hcm
    · subst hw; simp [credentialBootstrap, h]
    · subst hcm; cases wf <;> simp [credentialBootstrap, h]
  · intro cliTask task hp
    exact ⟨⟨task, allTrainSteps, (credentialBootstrap ⟨key, mode⟩ ⟨wf, cf⟩).1,
        (credentialBootstrap ⟨key, mode⟩ ⟨wf, cf⟩).2⟩,
      by simp [trainMain, hp], rfl, rfl, rfl⟩

/-- Witness for C9 (amended) at a concrete environment with a non-empty key,
no offline mode and no filesystem fault: the netrc file is written with
`0o600` permissions and no warning. -/
theorem c9_credential_witness :
    credentialBootstrap ⟨some "KEY", none⟩ ⟨false, false⟩ =
      (some ⟨netrcLines "KEY", some 0o600⟩, false) := by
  obtain ⟨-, h2, -, -⟩ := c9_credential_amended ⟨some "KEY", none⟩ ⟨false, false⟩
  obtain ⟨k, hk, hcb⟩ := h2 ⟨⟨"KEY", rfl, by decide⟩, by decide⟩ rfl rfl
  obtain rfl : "KEY" = k := Option.some.inj hk
  exact hcb

/-- C5 counterexample: for the checkpoint `epoch=2-step=500-val_loss=0.3400.ckpt`
against the expected `val_loss = 0.3504`, the computed difference is exactly
`-0.0104` but the computed percentage deviation is `-650/219 = -2.9680…%`,
which is not equal to `-2.97%`. -/
theorem c5_percentage_counterexample :
    metricComparison (extract_metrics_from_checkpoint "epoch=2-step=500-val_loss=0.3400.ckpt")
        "val_loss" 0.3504 = some (-0.0104, -650/219) ∧
    (-650/219 : ℚ) ≠ -2.97 := by
  constructor
  · simp +decide only [metricComparison, extract_metrics_from_checkpoint, pyStem, lastDotPos,
      pySplit, splitOnChar, extractParts, extractStep, upsert, lookup, coerceValue, containsChar,
      pyFloat, pyFloatOfChars, pyInt, pyIntOfChars, parseSign, digitsToNat, numVal, reduceIte,
      List.foldl, List.map, List.any, List.find?, charVal0, charVal2, charVal3, charVal4, charVal5]
    norm_num
  · norm_num

/-- C5 (amended): the difference is exactly `-0.0104`; the percentage
deviation is exactly `-650/219 ≈ -2.9680%`, which rounds to `-2.97%` at two
decimal places (distance below `0.005`) and is printed by the code at one
decimal place as `-3.0%` (distance at most `0.05`). -/
theorem c5_scenario_amended :
    metricComparison (extract_metrics_from_checkpoint "epoch=2-step=500-val_loss=0.3400.ckpt")
        "val_loss" 0.3504 = some (-0.0104, -650/219) ∧
    |(-650/219 : ℚ) - -2.97| < 1/200 ∧ |(-650/219 : ℚ) - -3.0| ≤ 1/20 := by
  refine ⟨?_, by rw [abs_of_nonneg (by norm_num)]; norm_num,
    by rw [abs_of_nonneg (by norm_num)]; norm_num⟩
  simp +decide only [metricComparison, extract_metrics_from_checkpoint, pyStem, lastDotPos,
    pySplit, splitOnChar, extractParts, extractStep, upsert, lookup, coerceValue, containsChar,
    pyFloat, pyFloatOfChars, pyInt, pyIntOfChars, parseSign, digitsToNat, numVal, reduceIte,
    List.foldl, List.map, List.any, List.find?, charVal0, charVal2, charVal3, charVal4, charVal5]
  norm_num

/-- C1: the checkpoint filename `a=1-b=2.5-c=text.ckpt` parses to the mapping
`{a: 1 (int), b: 2.5 (float), c: "text" (string)}`; in general a segment's
value is coerced to float when it contains a decimal point and parses as one,
else to integer when it contains no decimal point and parses as one, else is
kept as the original string. -/
theorem c1_value_coercion :
    extract_metrics_from_checkpoint "a=1-b=2.5-c=text.ckpt" =
      [("a", .int 1), ("b", .num 2.5), ("c", .str "text")] ∧
    (∀ v q, containsChar v '.' = true → pyFloat v = some q → coerceValue v = .num q) ∧
    (∀ v n, containsChar v '.' = false → pyInt v = some n → coerceValue v = .int n) ∧
    (∀ v, (containsChar v '.' = true → pyFloat v = none) →
      (containsChar v '.' = false → pyInt v = none) → coerceValue v = .str v) := by
  refine ⟨?_, ?_, ?_, ?_⟩
  · simp +decide only [extract_metrics_from_checkpoint, pyStem, lastDotPos, pySplit, splitOnChar,
      extractParts, extractStep, upsert, lookup, coerceValue, containsChar, pyFloat,
      pyFloatOfChars, pyInt, pyIntOfChars, parseSign, digitsToNat, reduceIte,
      List.foldl, List.map, List.any, charVal1, charVal2, charVal5]
    norm_num
  · intro v q h hf
    simp [coerceValue, h, hf]
  · intro v n h hi
    simp [coerceValue, h, hi]
  · intro v h1 h2
    by_cases h : containsChar v '.' = true
    · simp [coerceValue, h, h1 h]
    · have h' : containsChar v '.' = false := by simpa using h
      simp [coerceValue, h', h2 h']

/-- Witness for C1 at the three concrete value shapes: a float-looking value,
an integer-looking value and a plain word. -/
theorem c1_value_coercion_witness :
    coerceValue "2.5" = .num 2.5 ∧ coerceValue "17" = .int 17 ∧
      coerceValue "text" = .str "text" := by
  refine ⟨c1_value_coercion.2.1 "2.5" 2.5 rfl ?_, c1_value_coercion.2.2.1 "17" 17 rfl ?_,
    c1_value_coercion.2.2.2 "text" (fun h => absurd h (by decide)) (fun _ => by decide)⟩
  · simp +decide only [pyFloat, pyFloatOfChars, parseSign, splitOnChar, digitsToNat, reduceIte,
      List.foldl, charVal2, charVal5]
    norm_num
  · decide

/-- Evaluation helper: an option with a numeric content is present. -/
theorem numVal_isSome {o : Option PyVal} {q : ℚ} (h : numVal o = some q) :
    o.isSome = true := by
  match o with
  | none => exact absurd h (by simp [numVal])
  | some (.int n) => rfl
  | some (.num r) => rfl
  | some (.str s) => exact absurd h (by simp [numVal])

/-- C4: for a best-checkpoint record whose `val_loss`, `accuracy` and `f1`
values are all present and numeric, the verdict is `excellent` exactly when
all three absolute percentage deviations from the expected constants
(`0.3504`, `0.846`, `0.893`) are under 2%, `good` exactly when not all are
under 2% but all are under 5%, and `notice variation` exactly otherwise. -/
theorem c4_verdict_classification (m : Metrics) (a b c : ℚ)
    (ha : numVal (lookup m "val_loss") = some a)
    (hb : numVal (lookup m "accuracy") = some b)
    (hc : numVal (lookup m "f1") = some c) :
    (verdictOf m = .ok .excellent ↔
      devPct a 0.3504 < 2 ∧ devPct b 0.846 < 2 ∧ devPct c 0.893 < 2) ∧
    (verdictOf m = .ok .good ↔
      ¬(devPct a 0.3504 < 2 ∧ devPct b 0.846 < 2 ∧ devPct c 0.893 < 2) ∧
      (devPct a 0.3504 < 5 ∧ devPct b 0.846 < 5 ∧ devPct c 0.893 < 5)) ∧
    (verdictOf m = .ok .notice ↔
      ¬(devPct a 0.3504 < 5 ∧ devPct b 0.846 < 5 ∧ devPct c 0.893 < 5)) := by
  have hpresent : expected_results.all (fun p => (lookup m p.1).isSome) = true := by
    simp only [expected_results, List.all_cons, List.all_nil, Bool.and_eq_true, Bool.and_true]
    exact ⟨numVal_isSome ha, numVal_isSome hb, numVal_isSome hc⟩
  simp only [verdictOf, hpresent, if_true, ha, hb, hc, List.all_cons, List.all_nil,
    Bool.and_true, Bool.and_eq_true, decide_eq_true_eq]
  split_ifs with h2 h5
  · have h5' : devPct a 0.3504 < 5 ∧ devPct b 0.846 < 5 ∧ devPct c 0.893 < 5 :=
      ⟨h2.1.trans (by norm_num), h2.2.1.trans (by norm_num), h2.2.2.trans (by norm_num)⟩
    refine ⟨?_, ?_, ?_⟩ <;> simp_all
  · refine ⟨?_, ?_, ?_⟩ <;> simp_all
  · have hn2 : ¬(devPct a 0.3504 < 2 ∧ devPct b 0.846 < 2 ∧ devPct c 0.893 < 2) :=
      fun hx => h5 ⟨hx.1.trans (by norm_num), hx.2.1.trans (by norm_num),
        hx.2.2.trans (by norm_num)⟩
    refine ⟨?_, ?_, ?_⟩ <;> simp_all

/-- Witness for C4 at concrete deviations of 0.5%, 1% and 1.5% from the three
expected constants, classified `excellent`. -/
theorem c4_verdict_witness :
    verdictOf [("val_loss", .num (0.3504 * 1.005)), ("accuracy", .num (0.846 * 1.01)),
      ("f1", .num (0.893 * 1.015))] = .ok .excellent := by
  have h := c4_verdict_classification
    [("val_loss", .num (0.3504 * 1.005)), ("accuracy", .num (0.846 * 1.01)),
      ("f1", .num (0.893 * 1.015))]
    (0.3504 * 1.005) (0.846 * 1.01) (0.893 * 1.015) rfl rfl rfl
  refine h.1.mpr ⟨?_, ?_, ?_⟩ <;>
    · rw [devPct, abs_of_nonneg (by norm_num)]
      norm_num

/-! ### Helper lemmas on splitting and the metrics dictionary -/

/-- Structure-eta for the string wrapper. -/
theorem stringMk_data (s : String) : String.mk s.data = s := rfl

/-- A split never produces the empty list of fields. -/
theorem splitOnChar_ne_nil (sep : Char) (l : List Char) : splitOnChar sep l ≠ [] := by
  induction l with
  | nil => simp [splitOnChar]
  | cons c cs ih =>
    simp only [splitOnChar]
    by_cases h : c = sep
    · simp [h]
    · rcases hr : splitOnChar sep cs with - | ⟨h1, t⟩
      · exact absurd hr ih
      · simp [h, hr]

/-- Splitting a list free of the separator yields the single original field. -/
theorem splitOnChar_of_not_mem {sep : Char} {l : List Char}
    (h : l.any (fun x => decide (x = sep)) = false) : splitOnChar sep l = [l] := by
  induction l with
  | nil => rfl
  | cons c cs ih =>
    simp only [List.any_cons, Bool.or_eq_false_iff, decide_eq_false_iff_not] at h
    simp only [splitOnChar, if_neg h.1, ih h.2]

/-- Splitting a list containing the separator yields at least two fields. -/
theorem two_le_splitOnChar_of_mem {sep : Char} {l : List Char}
    (h : l.any (fun x => decide (x = sep)) = true) : 2 ≤ (splitOnChar sep l).length := by
  induction l with
  | nil => cases h
  | cons c cs ih =>
    simp only [List.any_cons, Bool.or_eq_true, decide_eq_true_eq] at h
    by_cases hc : c = sep
    · have h1 : 1 ≤ (splitOnChar sep cs).length :=
        List.length_pos.mpr (splitOnChar_ne_nil sep cs)
      simp only [splitOnChar, if_pos hc, List.length_cons]
      omega
    · have h2 : 2 ≤ (splitOnChar sep cs).length := ih (h.resolve_left hc)
      rcases hr : splitOnChar sep cs with - | ⟨h1, t⟩
      · exact absurd hr (splitOnChar_ne_nil sep cs)
      · rw [hr] at h2
        simp only [splitOnChar, if_neg hc, hr, List.length_cons]
        simpa using h2

/-- A token without `'='` splits into itself alone. -/
theorem pySplit_single {p : String} (h : containsChar p '=' = false) :
    pySplit p '=' = [p] := by
  rw [pySplit, splitOnChar_of_not_mem h, List.map_singleton, stringMk_data]

/-- A token containing `'='` splits into at least two fields. -/
theorem two_le_pySplit {p : String} (h : containsChar p '=' = true) :
    2 ≤ (pySplit p '=').length := by
  rw [pySplit, List.length_map]
  exact two_le_splitOnChar_of_mem h

/-- A token without `'='` leaves the dictionary unchanged. -/
theorem extractStep_of_no_eq {p : String} (h : containsChar p '=' = false) (m : Metrics) :
    extractStep m p = m := by
  simp [extractStep, pySplit_single h]

/-- Dropping the tokens without `'='` does not change the fold. -/
theorem foldl_extractStep_filter (parts : List String) (m : Metrics) :
    parts.foldl extractStep m =
      (parts.filter (fun p => containsChar p '=')).foldl extractStep m := by
  induction parts generalizing m with
  | nil => rfl
  | cons p rest ih =>
    by_cases h : containsChar p '=' = true
    · simp only [List.foldl_cons, List.filter_cons, h, if_true, ih]
    · have h' : containsChar p '=' = false := by simpa using h
      simp only [List.foldl_cons, extractStep_of_no_eq h', List.filter_cons, h',
        Bool.false_eq_true, if_false, ih]

/-- A key is present exactly when some pair of the dictionary carries it. -/
theorem lookup_isSome_iff (m : Metrics) (k : String) :
    (lookup m k).isSome = true ↔ ∃ p ∈ m, p.1 = k := by
  simp [lookup, List.find?_isSome]

/-- After `metrics[k] = v` the key `k` is present. -/
theorem mem_key_upsert_self (m : Metrics) (k : String) (v : PyVal) :
    ∃ q ∈ upsert m k v, q.1 = k := by
  rw [upsert]
  by_cases h : m.any (fun p => decide (p.1 = k)) = true
  · rw [if_pos h]
    obtain ⟨p, hp, hpk⟩ := List.any_eq_true.mp h
    refine ⟨(k, v), List.mem_map.mpr ⟨p, hp, ?_⟩, rfl⟩
    simp [of_decide_eq_true hpk]
  · rw [if_neg h]
    exact ⟨(k, v), List.mem_append_right _ (List.mem_singleton.mpr rfl), rfl⟩

/-- `metrics[k'] = v'` keeps every already-present key present. -/
theorem mem_key_upsert_mono (m : Metrics) (k' : String) (v' : PyVal) {k : String}
    (h : ∃ p ∈ m, p.1 = k) : ∃ q ∈ upsert m k' v', q.1 = k := by
  obtain ⟨p, hp, hpk⟩ := h
  rw [upsert]
  by_cases ha : m.any (fun p => decide (p.1 = k')) = true
  · rw [if_pos ha]
    by_cases hk : p.1 = k'
    · exact ⟨(k', v'), List.mem_map.mpr ⟨p, hp, by simp [hk]⟩, by rw [← hpk, hk]⟩
    · exact ⟨p, List.mem_map.mpr ⟨p, hp, by simp [hk]⟩, hpk⟩
  · rw [if_neg ha]
    exact ⟨p, List.mem_append_left _ hp, hpk⟩

/-- One loop iteration keeps every present key present. -/
theorem mem_key_extractStep_mono (p : String) (m : Metrics) {k : String}
    (h : ∃ q ∈ m, q.1 = k) : ∃ q ∈ extractStep m p, q.1 = k := by
  rcases hs : pySplit p '=' with - | ⟨a, - | ⟨b, - | ⟨c, t⟩⟩⟩ <;>
    simp only [extractStep, hs]
  · exact h
  · exact h
  · exact mem_key_upsert_mono m a (coerceValue b) h
  · exact h

/-- The whole loop keeps every present key present. -/
theorem mem_key_foldl_mono (parts : List String) (m : Metrics) {k : String}
    (h : ∃ q ∈ m, q.1 = k) : ∃ q ∈ parts.foldl extractStep m, q.1 = k := by
  induction parts generalizing m with
  | nil => exact h
  | cons p rest ih => exact ih _ (mem_key_extractStep_mono p m h)

/-- Processing a well-formed `key=value` token makes its key present, whatever
the other tokens contain. -/
theorem mem_key_foldl_of_token {parts : List String} {p k v : String}
    (hp : p ∈ parts) (hs : pySplit p '=' = [k, v]) (m : Metrics) :
    ∃ q ∈ parts.foldl extractStep m, q.1 = k := by
  induction parts generalizing m with
  | nil => cases hp
  | cons a rest ih =>
    rcases List.mem_cons.mp hp with rfl | hmem
    · have hstep : extractStep m p = upsert m k (coerceValue v) := by
        simp [extractStep, hs]
      rw [List.foldl_cons, hstep]
      exact mem_key_foldl_mono rest _ (mem_key_upsert_self m k (coerceValue v))
    · exact ih hmem _

/-- C2 counterexample: the filename `x=1-a=b=c.ckpt` contains the well-formed
segment `x=1` and the malformed segment `a=b=c` (two `'='`).  The malformed
segment is not skipped on its own: the tuple unpacking raises, the outer
handler returns the empty mapping, and the entry for the well-formed segment
`x=1` is lost. -/
theorem c2_multi_eq_counterexample :
    extract_metrics_from_checkpoint "x=1-a=b=c.ckpt" = [] ∧
    lookup (extract_metrics_from_checkpoint "x=1-a=b=c.ckpt") "x" = none :=
  ⟨by decide, by decide⟩

/-- C2 (amended): provided no dash-delimited segment contains two or more
`'='`, a segment containing no `'='` is silently skipped on its own — the
parse equals the parse of the well-formed segments alone — and the returned
mapping contains an entry for the key of every well-formed segment.  (A
segment with two or more `'='` instead makes the whole parse return the
empty mapping, as the counterexample shows.) -/
theorem c2_malformed_segments_amended (path : String)
    (h : ∀ p ∈ pySplit (String.mk (pyStem path.data)) '-', (pySplit p '=').length ≤ 2) :
    extract_metrics_from_checkpoint path =
      extractParts ((pySplit (String.mk (pyStem path.data)) '-').filter
        (fun p => containsChar p '=')) ∧
    (∀ p ∈ pySplit (String.mk (pyStem path.data)) '-', ∀ k v, pySplit p '=' = [k, v] →
      (lookup (extract_metrics_from_checkpoint path) k).isSome = true) := by
  have hguard : ((pySplit (String.mk (pyStem path.data)) '-').any
      (fun p => decide (2 < (pySplit p '=').length))) = false := by
    simp only [List.any_eq_false, decide_eq_true_eq]
    intro p hp
    simpa using Nat.not_lt.mpr (h p hp)
  have hextract : extract_metrics_from_checkpoint path =
      extractParts (pySplit (String.mk (pyStem path.data)) '-') := by
    simp only [extract_metrics_from_checkpoint, hguard, Bool.false_eq_true, if_false]
  constructor
  · rw [hextract, extractParts, extractParts, foldl_extractStep_filter]
  · intro p hp k v hs
    rw [hextract, extractParts, lookup_isSome_iff]
    exact mem_key_foldl_of_token hp hs []

/-- Witness for C2 (amended) at the concrete filename `abc-x=1.ckpt`: the
`abc` segment is skipped, and the key of the well-formed segment `x=1` is
present in the result. -/
theorem c2_malformed_segments_witness :
    extract_metrics_from_checkpoint "abc-x=1.ckpt" =
      extractParts ((pySplit (String.mk (pyStem "abc-x=1.ckpt".data)) '-').filter
        (fun p => containsChar p '=')) ∧
    (lookup (extract_metrics_from_checkpoint "abc-x=1.ckpt") "x").isSome = true := by
  have h := c2_malformed_segments_amended "abc-x=1.ckpt" (by decide)
  exact ⟨h.1, h.2 "x=1" (by decide) "x" "1" (by decide)⟩

/-- A numeric sort key is exactly a present numeric `val_loss` value. -/
theorem sortKey_eq_num_iff {c : Checkpoint} {q : ℚ} :
    sortKey c = .num q ↔ valLossQ c = some q := by
  rw [sortKey, valLossQ]
  cases h : lookup c.metrics "val_loss" with
  | none => simp [numVal]
  | some pv => cases pv <;> simp [numVal]

/-- The `inf` sort key is exactly a missing `val_loss` entry. -/
theorem sortKey_eq_inf_iff {c : Checkpoint} :
    sortKey c = .inf ↔ lookup c.metrics "val_loss" = none := by
  rw [sortKey]
  cases h : lookup c.metrics "val_loss" with
  | none => simp
  | some pv => cases pv <;> simp

/-- C3 counterexample: two checkpoints with the same `val_loss = 0.5` sort
without error, but the sequence of present `val_loss` values of the result is
`[0.5, 0.5]`, which is not strictly ascending. -/
theorem c3_duplicate_val_loss_counterexample :
    list_checkpoints (some ["a=1-val_loss=0.5.ckpt", "b=2-val_loss=0.5.ckpt"]) =
      .ok ([mkCheckpoint "a=1-val_loss=0.5.ckpt", mkCheckpoint "b=2-val_loss=0.5.ckpt"], false) ∧
    ([mkCheckpoint "a=1-val_loss=0.5.ckpt",
        mkCheckpoint "b=2-val_loss=0.5.ckpt"].filterMap valLossQ) = [0.5, 0.5] ∧
    ¬ List.Chain' (· < ·) [(0.5 : ℚ), 0.5] := by
  have hm1 : mkCheckpoint "a=1-val_loss=0.5.ckpt" =
      ⟨"a=1-val_loss=0.5.ckpt", [("a", .int 1), ("val_loss", .num 0.5)]⟩ := by
    simp +decide only [mkCheckpoint, extract_metrics_from_checkpoint, pyStem, lastDotPos,
      pySplit, splitOnChar, extractParts, extractStep, upsert, lookup, coerceValue, containsChar,
      pyFloat, pyFloatOfChars, pyInt, pyIntOfChars, parseSign, digitsToNat, reduceIte,
      List.foldl, List.map, List.any, charVal0, charVal1, charVal5]
    norm_num
  have hm2 : mkCheckpoint "b=2-val_loss=0.5.ckpt" =
      ⟨"b=2-val_loss=0.5.ckpt", [("b", .int 2), ("val_loss", .num 0.5)]⟩ := by
    simp +decide only [mkCheckpoint, extract_metrics_from_checkpoint, pyStem, lastDotPos,
      pySplit, splitOnChar, extractParts, extractStep, upsert, lookup, coerceValue, containsChar,
      pyFloat, pyFloatOfChars, pyInt, pyIntOfChars, parseSign, digitsToNat, reduceIte,
      List.foldl, List.map, List.any, charVal0, charVal2, charVal5]
    norm_num
  refine ⟨?_, ?_, by simp⟩
  · simp only [list_checkpoints, List.map_cons, List.map_nil, hm1, hm2]
    have hsortable : sortable
        [(⟨"a=1-val_loss=0.5.ckpt", [("a", .int 1), ("val_loss", .num 0.5)]⟩ : Checkpoint),
          ⟨"b=2-val_loss=0.5.ckpt", [("b", .int 2), ("val_loss", .num 0.5)]⟩] = true := by
      decide
    rw [if_pos hsortable]
    simp +decide only [List.insertionSort, List.orderedInsert, ckptRel, keyLE, sortKey,
      lookup, numVal, List.find?, reduceIte]
    norm_num
  · rw [hm1, hm2]
    rfl

/-- C3 (amended): for every list of checkpoint files whose parsed `val_loss`
sort keys are not strings (numeric or missing), `list_checkpoints` returns
the records sorted in NON-DECREASING order of the `val_loss` key, every
record lacking the key (positive-infinity sentinel) placed after every record
having it, and the sequence of present `val_loss` values non-decreasing —
strictness fails when two records share a value, as the counterexample
shows. -/
theorem c3_sorted_amended (files : List String)
    (h : ∀ f ∈ files, isStrKey (sortKey (mkCheckpoint f)) = false) :
    list_checkpoints (some files) =
      .ok (List.insertionSort ckptRel (files.map mkCheckpoint), false) ∧
    (List.insertionSort ckptRel (files.map mkCheckpoint)).Pairwise ckptRel ∧
    (List.insertionSort ckptRel (files.map mkCheckpoint)).Pairwise
      (fun a b => lookup a.metrics "val_loss" = none → lookup b.metrics "val_loss" = none) ∧
    ((List.insertionSort ckptRel (files.map mkCheckpoint)).filterMap valLossQ).Chain'
      (· ≤ ·) := by
  have hsortable : sortable (files.map mkCheckpoint) = true := by
    simp only [sortable, Bool.or_eq_true, List.all_eq_true]
    right
    intro c hc
    obtain ⟨f, hf, rfl⟩ := List.mem_map.mp hc
    simp [h f hf]
  have hsorted := List.sorted_insertionSort ckptRel (files.map mkCheckpoint)
  refine ⟨by simp [list_checkpoints, hsortable], hsorted, ?_, ?_⟩
  · refine hsorted.imp_of_mem ?_
    intro a b _ hb hr hnone
    have hb' : isStrKey (sortKey b) = false := by
      have hmem : b ∈ files.map mkCheckpoint :=
        ((List.perm_insertionSort ckptRel (files.map mkCheckpoint)).mem_iff).mp hb
      obtain ⟨f, hf, rfl⟩ := List.mem_map.mp hmem
      exact h f hf
    have hka : sortKey a = .inf := sortKey_eq_inf_iff.mpr hnone
    rw [ckptRel, hka] at hr
    cases hkb : sortKey b with
    | num q => rw [hkb] at hr; exact absurd hr (by simp [keyLE])
    | inf => exact sortKey_eq_inf_iff.mp hkb
    | str s => rw [hkb] at hb'; exact absurd hb' (by simp [isStrKey])
  · have hpw : (List.insertionSort ckptRel (files.map mkCheckpoint)).Pairwise
        (fun a b => ∀ x ∈ valLossQ a, ∀ y ∈ valLossQ b, x ≤ y) := by
      refine hsorted.imp_of_mem ?_
      intro a b _ _ hr x hx y hy
      have hka : sortKey a = .num x := sortKey_eq_num_iff.mpr hx
      have hkb : sortKey b = .num y := sortKey_eq_num_iff.mpr hy
      rw [ckptRel, hka, hkb] at hr
      simpa [keyLE] using hr
    exact (List.pairwise_filterMap.mpr hpw).chain'

/-- Witness for C3 (amended) at a concrete two-file directory with distinct
numeric validation losses. -/
theorem c3_sorted_witness :
    list_checkpoints (some ["e=1-val_loss=0.7.ckpt", "e=2-val_loss=0.6.ckpt"]) =
      .ok (List.insertionSort ckptRel
        (["e=1-val_loss=0.7.ckpt", "e=2-val_loss=0.6.ckpt"].map mkCheckpoint), false) ∧
    (List.insertionSort ckptRel
      (["e=1-val_loss=0.7.ckpt", "e=2-val_loss=0.6.ckpt"].map mkCheckpoint)).Pairwise
      ckptRel := by
  have h := c3_sorted_amended ["e=1-val_loss=0.7.ckpt", "e=2-val_loss=0.6.ckpt"] (by decide)
  exact ⟨h.1, h.2.1⟩

/-- C7 counterexample: a directory containing `a=1-val_loss=0.5.ckpt` and
`b=2-val_loss=loss.ckpt` parses one numeric and one string `val_loss` key;
`sorted` then compares a string with a float, raises `TypeError`, the
exception propagates out of `main`, and the process exits with status 1, not
0. -/
theorem c7_mixed_keys_counterexample :
    mainVerify (some ["a=1-val_loss=0.5.ckpt", "b=2-val_loss=loss.ckpt"]) =
      .error "TypeError: '<' not supported between instances of 'str' and 'float'" ∧
    exitCode (some ["a=1-val_loss=0.5.ckpt", "b=2-val_loss=loss.ckpt"]) = 1 :=
  ⟨rfl, rfl⟩

/-- C7 (amended): the inspector's `main` completes without an uncaught
exception and exits 0 for every directory content whose parsed `val_loss`
sort keys are not a mix of string and non-string kinds, and whose records,
whenever they contain all three expected metric keys, hold numeric values
for them. -/
theorem c7_completion_amended (dir : Option (List String))
    (h1 : ∀ files, dir = some files → sortable (files.map mkCheckpoint) = true)
    (h2 : ∀ files, dir = some files → ∀ f ∈ files,
      (expected_results.all
        (fun p => (lookup (extract_metrics_from_checkpoint f) p.1).isSome)) = true →
      ((numVal (lookup (extract_metrics_from_checkpoint f) "val_loss")).isSome = true ∧
        (numVal (lookup (extract_metrics_from_checkpoint f) "accuracy")).isSome = true ∧
        (numVal (lookup (extract_metrics_from_checkpoint f) "f1")).isSome = true)) :
    mainVerify dir = .ok () ∧ exitCode dir = 0 := by
  cases dir with
  | none => exact ⟨rfl, rfl⟩
  | some files =>
    have hs := h1 files rfl
    have hlc : list_checkpoints (some files) =
        .ok (List.insertionSort ckptRel (files.map mkCheckpoint), false) := by
      simp [list_checkpoints, hs]
    cases hl : List.insertionSort ckptRel (files.map mkCheckpoint) with
    | nil =>
      rw [hl] at hlc
      have : mainVerify (some files) = .ok () := by
        simp [mainVerify, hlc]
      exact ⟨this, by simp [exitCode, this]⟩
    | cons best rest =>
      rw [hl] at hlc
      have hbest : best ∈ files.map mkCheckpoint := by
        have hmem : best ∈ List.insertionSort ckptRel (files.map mkCheckpoint) := by
          rw [hl]; exact List.mem_cons_self best rest
        exact ((List.perm_insertionSort ckptRel (files.map mkCheckpoint)).mem_iff).mp hmem
      obtain ⟨f, hf, rfl⟩ := List.mem_map.mp hbest
      have hv : ∃ v, verdictOf (extract_metrics_from_checkpoint f) = .ok v := by
        rw [verdictOf]
        by_cases hp : (expected_results.all
            (fun p => (lookup (extract_metrics_from_checkpoint f) p.1).isSome)) = true
        · obtain ⟨hva, hvb, hvc⟩ := h2 files rfl f hf hp
          obtain ⟨a, ha⟩ := Option.isSome_iff_exists.mp hva
          obtain ⟨b, hb⟩ := Option.isSome_iff_exists.mp hvb
          obtain ⟨c, hc⟩ := Option.isSome_iff_exists.mp hvc
          rw [if_pos hp]
          simp only [ha, hb, hc]
          split_ifs <;> exact ⟨_, rfl⟩
        · rw [if_neg hp]
          exact ⟨.incomplete, rfl⟩
      obtain ⟨v, hv⟩ := hv
      have hok : mainVerify (some files) = .ok () := by
        simp only [mainVerify, hlc, mkCheckpoint] at hv ⊢
        simp [hv]
      exact ⟨hok, by simp [exitCode, hok]⟩

/-- Witness for C7 (amended) at a concrete one-file directory: its single
record has a numeric `val_loss` key and lacks `accuracy` and `f1`, so `main`
completes and exits 0. -/
theorem c7_completion_witness :
    mainVerify (some ["epoch=1-step=2-val_loss=0.5.ckpt"]) = .ok () ∧
    exitCode (some ["epoch=1-step=2-val_loss=0.5.ckpt"]) = 0 := by
  refine c7_completion_amended (some ["epoch=1-step=2-val_loss=0.5.ckpt"]) ?_ ?_
  · intro files hf
    obtain rfl : ["epoch=1-step=2-val_loss=0.5.ckpt"] = files := Option.some.inj hf
    decide
  · intro files hf f hfmem hp
    obtain rfl : ["epoch=1-step=2-val_loss=0.5.ckpt"] = files := Option.some.inj hf
    obtain rfl : f = "epoch=1-step=2-val_loss=0.5.ckpt" := by simpa using hfmem
    exact absurd hp (by decide)
